import Mathlib

/-!
Verification of the inventory transaction core of the Sweet Shop management
system (Supabase edge function `inventory`: purchase and restock handlers).

The handlers are shallowly embedded: the backing store (tables `sweets` and
`purchases`) becomes an explicit `Store` value threaded through each call,
the Supabase calls become pure list operations, and the two fallible writes
of the purchase path (the stock update and the purchase-record insert) are
given explicit failure switches so that the error branches of the handler
are reachable in the model. JavaScript numbers are modelled as rationals;
the one claim that depends on binary floating point (the 2.99 × 3 scenario)
is settled with an explicit round-to-nearest model of IEEE double rounding.
-/

/-- A row of the `sweets` table, as selected by the purchase handler
(`select('*')`). `price` and `quantity` are JavaScript numbers, modelled
as rationals. -/
structure Sweet where
  id : String
  name : String
  category : String
  price : ℚ
  quantity : ℚ
  description : Option String
  deriving DecidableEq

/-- A row inserted into the `purchases` table by the purchase handler. -/
structure PurchaseRecord where
  user_id : String
  sweet_id : String
  quantity : ℚ
  total_price : ℚ
  deriving DecidableEq

/-- The state of the backing store seen by the handlers: the `sweets`
table and the `purchases` table. -/
structure Store where
  sweets : List Sweet
  purchases : List PurchaseRecord
  deriving DecidableEq

/-- `supabase.from('sweets').select(...).eq('id', sweetId).single()`:
the row whose `id` equals `sweetId` (ids are a primary key, so the first
match is the row). -/
def readSweet (st : Store) (sweetId : String) : Option Sweet :=
  st.sweets.find? fun sw => sw.id == sweetId

/-- `supabase.from('sweets').update({ quantity: newQuantity }).eq('id', sweetId)`:
overwrite the quantity of the row(s) whose `id` equals `sweetId`. The update
is keyed on `id` only; it is not conditioned on the current quantity. -/
def updateQuantity (st : Store) (sweetId : String) (newQuantity : ℚ) : Store :=
  { st with
    sweets := st.sweets.map fun sw =>
      if sw.id == sweetId then { sw with quantity := newQuantity } else sw }

/-- `supabase.from('purchases').insert([...])`: append one purchase row. -/
def insertPurchase (st : Store) (p : PurchaseRecord) : Store :=
  { st with purchases := st.purchases ++ [p] }

/-- Failure switches for the store round-trips of the purchase handler:
`updateFails` makes the stock update report `updateError`, `insertFails`
makes the record insert report `purchaseError`, and `compensateFails` makes
the compensating write (whose error the handler ignores) have no effect. -/
structure StoreBehavior where
  updateFails : Bool
  insertFails : Bool
  compensateFails : Bool
  deriving DecidableEq

/-- The behavior in which every store round-trip succeeds. -/
def allOk : StoreBehavior := ⟨false, false, false⟩

/-- The behavior in which the stock update succeeds but the
purchase-record insert fails, while the compensating write is applied. -/
def insertFailure : StoreBehavior := ⟨false, true, false⟩

/-- The possible responses of the purchase handler, one constructor per
`return new Response(...)` of the `/purchase` branch. -/
inductive PurchaseResult where
  | invalidRequest
  | notFound
  | insufficientStock (available : ℚ)
  | updateFailed
  | recordFailed
  | success (purchase : PurchaseRecord) (remainingStock : ℚ)
  deriving DecidableEq

/-- The HTTP status code of each purchase response, copied from the
`status:` field of the corresponding `Response`. -/
def PurchaseResult.status : PurchaseResult → Nat
  | .invalidRequest => 400
  | .notFound => 404
  | .insufficientStock _ => 400
  | .updateFailed => 500
  | .recordFailed => 500
  | .success _ _ => 200

/-- The `/purchase` branch of the edge function, for an authenticated user
`userId`. Mirrors the source line by line: validate `sweetId` and
`quantity` (falsy or non-positive ⇒ 400), read the sweet (missing ⇒ 404),
check stock (`sweet.quantity < quantity` ⇒ 400 with the available amount),
compute `totalPrice = sweet.price * quantity`, write
`sweet.quantity - quantity` keyed on `id` (error ⇒ 500), insert the
purchase record, and on insert error write the original `sweet.quantity`
back and return 500; on success return the record and
`remainingStock = sweet.quantity - quantity`. -/
def purchase (beh : StoreBehavior) (st : Store) (userId sweetId : String)
    (quantity : ℚ) : PurchaseResult × Store :=
  if sweetId = "" ∨ quantity = 0 ∨ quantity ≤ 0 then
    (.invalidRequest, st)
  else
    match readSweet st sweetId with
    | none => (.notFound, st)
    | some sweet =>
      if sweet.quantity < quantity then
        (.insufficientStock sweet.quantity, st)
      else
        let totalPrice := sweet.price * quantity
        if beh.updateFails then
          (.updateFailed, st)
        else
          let st1 := updateQuantity st sweetId (sweet.quantity - quantity)
          if beh.insertFails then
            let st2 :=
              if beh.compensateFails then st1
              else updateQuantity st1 sweetId sweet.quantity
            (.recordFailed, st2)
          else
            let record : PurchaseRecord :=
              ⟨userId, sweetId, quantity, totalPrice⟩
            (.success record (sweet.quantity - quantity),
              insertPurchase st1 record)

/-- The possible responses of the restock handler, one constructor per
`return new Response(...)` of the `/restock` branch. -/
inductive RestockResult where
  | forbidden
  | invalidRequest
  | notFound
  | updateFailed
  | success (newQuantity : ℚ)
  deriving DecidableEq

/-- The HTTP status code of each restock response. -/
def RestockResult.status : RestockResult → Nat
  | .forbidden => 403
  | .invalidRequest => 400
  | .notFound => 404
  | .updateFailed => 500
  | .success _ => 200

/-- The `/restock` branch of the edge function. `isAdmin` is the result of
the `user_profiles.is_admin` lookup that the handler performs first; only
after that check passes is the request body read and validated, the sweet
read, and `sweet.quantity + quantity` written back and returned as
`newQuantity`. -/
def restock (isAdmin : Bool) (beh : StoreBehavior) (st : Store)
    (sweetId : String) (quantity : ℚ) : RestockResult × Store :=
  if !isAdmin then
    (.forbidden, st)
  else if sweetId = "" ∨ quantity = 0 ∨ quantity ≤ 0 then
    (.invalidRequest, st)
  else
    match readSweet st sweetId with
    | none => (.notFound, st)
    | some sweet =>
      let newQuantity := sweet.quantity + quantity
      if beh.updateFails then
        (.updateFailed, st)
      else
        (.success newQuantity, updateQuantity st sweetId newQuantity)

/-- The read phase of a purchase request: validation, the fresh read of the
sweet, and the stock check, exactly as in the handler. It returns the
snapshot row all later steps of that request use. Splitting the handler
here exposes the interleavings of two concurrent requests, whose store
round-trips may be ordered read₁ read₂ write₁ write₂. -/
def purchaseRead (st : Store) (sweetId : String) (quantity : ℚ) :
    Option Sweet :=
  if sweetId = "" ∨ quantity = 0 ∨ quantity ≤ 0 then none
  else
    match readSweet st sweetId with
    | none => none
    | some sweet =>
      if sweet.quantity < quantity then none else some sweet

/-- The write phase of a purchase request whose read phase produced the
snapshot `sweet`: write `sweet.quantity - quantity` keyed on `id` (with no
check against the quantity currently stored) and insert the purchase
record. -/
def purchaseWrite (st : Store) (userId sweetId : String) (quantity : ℚ)
    (sweet : Sweet) : PurchaseResult × Store :=
  let st1 := updateQuantity st sweetId (sweet.quantity - quantity)
  let record : PurchaseRecord :=
    ⟨userId, sweetId, quantity, sweet.price * quantity⟩
  (.success record (sweet.quantity - quantity), insertPurchase st1 record)

/-- Round-to-nearest at a fixed binade of IEEE binary64: a JavaScript
number in a binade whose unit in the last place is 2 ^ (-fracBits) rounds
to the nearest multiple of 2 ^ (-fracBits). For doubles in [2, 4) the
unit is 2 ^ (-51); in [8, 16) it is 2 ^ (-49). -/
def nearestFloat (x : ℚ) (fracBits : ℕ) : ℚ :=
  (round (x * 2 ^ fracBits) : ℚ) / 2 ^ fracBits

/-- All quantities in the store are non-negative (the `quantity >= 0`
invariant, also a CHECK constraint of the `sweets` table). -/
def nonnegStock (st : Store) : Prop := ∀ sw ∈ st.sweets, 0 ≤ sw.quantity

/-- The scenario product of the specification: p1 with price 2.99 and
quantity 5 (cf. the sample row Dark Chocolate Bar of the migration). -/
def sampleSweet : Sweet :=
  ⟨"p1", "Dark Chocolate Bar", "Chocolate", 299 / 100, 5,
    some "Rich 70 percent cocoa dark chocolate"⟩

/-- The scenario store: just the product p1, no purchases yet. -/
def sampleStore : Store := { sweets := [sampleSweet], purchases := [] }

/-- The scenario product after the first scenario purchase: quantity 2. -/
def restockSweet : Sweet :=
  ⟨"p1", "Dark Chocolate Bar", "Chocolate", 299 / 100, 2, none⟩

/-- The store holding `restockSweet`, used by the insufficient-stock and
restock scenarios. -/
def restockStore : Store := { sweets := [restockSweet], purchases := [] }

theorem readSweet_insertPurchase (st : Store) (p : PurchaseRecord)
    (j : String) : readSweet (insertPurchase st p) j = readSweet st j := rfl

theorem purchases_updateQuantity (st : Store) (i : String) (v : ℚ) :
    (updateQuantity st i v).purchases = st.purchases := rfl

theorem readSweet_update (st : Store) (i j : String) (v : ℚ) :
    readSweet (updateQuantity st i v) j =
      (readSweet st j).map
        fun sw => if sw.id == i then { sw with quantity := v } else sw := by
  unfold readSweet updateQuantity
  rw [List.find?_map]
  have hp : ((fun sw : Sweet => sw.id == j) ∘
      fun sw : Sweet => if sw.id == i then { sw with quantity := v } else sw) =
      fun sw : Sweet => sw.id == j := by
    funext sw
    by_cases h : sw.id == i <;> simp [Function.comp, h]
  rw [hp]

theorem readSweet_update_self (st : Store) (i : String) (sw : Sweet) (v : ℚ)
    (hfind : readSweet st i = some sw) :
    readSweet (updateQuantity st i v) i = some { sw with quantity := v } := by
  have hid : (sw.id == i) = true := by
    unfold readSweet at hfind
    have h2 := List.find?_some hfind
    exact h2
  rw [readSweet_update, hfind]
  simp only [Option.map_some', if_pos hid]

theorem readSweet_restore (st : Store) (i : String) (sw : Sweet)
    (hfind : readSweet st i = some sw) (j : String) :
    readSweet (updateQuantity st i sw.quantity) j = readSweet st j := by
  rw [readSweet_update]
  cases hj : readSweet st j with
  | none => rfl
  | some sw2 =>
    simp only [Option.map_some']
    by_cases h : sw2.id == i
    · have hji : j = i := by
        have h1 : sw2.id = i := eq_of_beq h
        have h2 : (sw2.id == j) = true := by
          unfold readSweet at hj
          have h4 := List.find?_some hj
          exact h4
        have h3 : sw2.id = j := eq_of_beq h2
        rw [← h3, h1]
      subst hji
      rw [hfind] at hj
      injection hj with hj
      subst hj
      rw [if_pos h]
    · rw [if_neg h]

theorem updateQuantity_updateQuantity (st : Store) (i : String) (a b : ℚ) :
    updateQuantity (updateQuantity st i a) i b = updateQuantity st i b := by
  unfold updateQuantity
  simp only [List.map_map]
  have hp : ((fun sw : Sweet => if sw.id == i then { sw with quantity := b } else sw) ∘
      fun sw : Sweet => if sw.id == i then { sw with quantity := a } else sw) =
      fun sw : Sweet => if sw.id == i then { sw with quantity := b } else sw := by
    funext sw
    by_cases h : sw.id == i <;> simp [Function.comp, h]
  rw [hp]

theorem nonnegStock_update (st : Store) (i : String) (v : ℚ)
    (hst : nonnegStock st) (hv : 0 ≤ v) : nonnegStock (updateQuantity st i v) := by
  intro sw hsw
  simp only [updateQuantity, List.mem_map] at hsw
  obtain ⟨sw0, hmem, rfl⟩ := hsw
  by_cases h : sw0.id == i
  · rw [if_pos h]
    exact hv
  · rw [if_neg h]
    exact hst sw0 hmem

theorem purchase_invalid (beh : StoreBehavior) (st : Store) (u i : String)
    (q : ℚ) (h : i = "" ∨ q = 0 ∨ q ≤ 0) :
    purchase beh st u i q = (.invalidRequest, st) := by
  simp only [purchase, if_pos h]

theorem purchase_notFound (beh : StoreBehavior) (st : Store) (u i : String)
    (q : ℚ) (hv : ¬(i = "" ∨ q = 0 ∨ q ≤ 0)) (hfind : readSweet st i = none) :
    purchase beh st u i q = (.notFound, st) := by
  simp only [purchase, if_neg hv, hfind]

theorem purchase_insufficient (beh : StoreBehavior) (st : Store) (u i : String)
    (q : ℚ) (sw : Sweet) (hv : ¬(i = "" ∨ q = 0 ∨ q ≤ 0))
    (hfind : readSweet st i = some sw) (hlt : sw.quantity < q) :
    purchase beh st u i q = (.insufficientStock sw.quantity, st) := by
  simp only [purchase, if_neg hv, hfind, if_pos hlt]

theorem purchase_updateFailed (beh : StoreBehavior) (st : Store) (u i : String)
    (q : ℚ) (sw : Sweet) (hv : ¬(i = "" ∨ q = 0 ∨ q ≤ 0))
    (hfind : readSweet st i = some sw) (hge : ¬sw.quantity < q)
    (hupd : beh.updateFails = true) :
    purchase beh st u i q = (.updateFailed, st) := by
  simp only [purchase, if_neg hv, hfind, if_neg hge, hupd, if_true]

theorem purchase_recordFailed_eq (beh : StoreBehavior) (st : Store)
    (u i : String) (q : ℚ) (sw : Sweet) (hv : ¬(i = "" ∨ q = 0 ∨ q ≤ 0))
    (hfind : readSweet st i = some sw) (hge : ¬sw.quantity < q)
    (hupd : beh.updateFails = false) (hins : beh.insertFails = true) :
    purchase beh st u i q =
      (.recordFailed,
        if beh.compensateFails then
          updateQuantity st i (sw.quantity - q)
        else
          updateQuantity (updateQuantity st i (sw.quantity - q)) i
            sw.quantity) := by
  simp only [purchase, if_neg hv, hfind, if_neg hge, hupd, hins,
    Bool.false_eq_true, if_false, if_true]

theorem purchase_success_eq (beh : StoreBehavior) (st : Store) (u i : String)
    (q : ℚ) (sw : Sweet) (hv : ¬(i = "" ∨ q = 0 ∨ q ≤ 0))
    (hfind : readSweet st i = some sw) (hge : ¬sw.quantity < q)
    (hupd : beh.updateFails = false) (hins : beh.insertFails = false) :
    purchase beh st u i q =
      (.success ⟨u, i, q, sw.price * q⟩ (sw.quantity - q),
        insertPurchase (updateQuantity st i (sw.quantity - q))
          ⟨u, i, q, sw.price * q⟩) := by
  simp only [purchase, if_neg hv, hfind, if_neg hge, hupd, hins,
    Bool.false_eq_true, if_false]

theorem restock_forbidden (beh : StoreBehavior) (st : Store) (i : String)
    (q : ℚ) : restock false beh st i q = (.forbidden, st) := by
  simp only [restock, Bool.not_false, if_true]

theorem restock_invalid (beh : StoreBehavior) (st : Store) (i : String)
    (q : ℚ) (h : i = "" ∨ q = 0 ∨ q ≤ 0) :
    restock true beh st i q = (.invalidRequest, st) := by
  simp only [restock, Bool.not_true, Bool.false_eq_true, if_false, if_pos h]

theorem restock_notFound (beh : StoreBehavior) (st : Store) (i : String)
    (q : ℚ) (hv : ¬(i = "" ∨ q = 0 ∨ q ≤ 0)) (hfind : readSweet st i = none) :
    restock true beh st i q = (.notFound, st) := by
  simp only [restock, Bool.not_true, Bool.false_eq_true, if_false, if_neg hv,
    hfind]

theorem restock_updateFailed (beh : StoreBehavior) (st : Store) (i : String)
    (q : ℚ) (sw : Sweet) (hv : ¬(i = "" ∨ q = 0 ∨ q ≤ 0))
    (hfind : readSweet st i = some sw) (hupd : beh.updateFails = true) :
    restock true beh st i q = (.updateFailed, st) := by
  simp only [restock, Bool.not_true, Bool.false_eq_true, if_false, if_neg hv,
    hfind, hupd, if_true]

theorem restock_success_eq (beh : StoreBehavior) (st : Store) (i : String)
    (q : ℚ) (sw : Sweet) (hv : ¬(i = "" ∨ q = 0 ∨ q ≤ 0))
    (hfind : readSweet st i = some sw) (hupd : beh.updateFails = false) :
    restock true beh st i q =
      (.success (sw.quantity + q), updateQuantity st i (sw.quantity + q)) := by
  simp only [restock, Bool.not_true, Bool.false_eq_true, if_false, if_neg hv,
    hfind, hupd]

theorem valid_not (i : String) (q : ℚ) (hid : i ≠ "") (hq : 0 < q) :
    ¬(i = "" ∨ q = 0 ∨ q ≤ 0) := by
  push_neg
  exact ⟨hid, ne_of_gt hq, hq⟩

theorem purchase_eq_phases (st : Store) (u i : String) (q : ℚ) (sw : Sweet)
    (h : purchaseRead st i q = some sw) :
    purchase allOk st u i q = purchaseWrite st u i q sw := by
  unfold purchaseRead at h
  by_cases hv : i = "" ∨ q = 0 ∨ q ≤ 0
  · rw [if_pos hv] at h
    exact absurd h (by simp)
  · rw [if_neg hv] at h
    cases hfind : readSweet st i with
    | none =>
      rw [hfind] at h
      exact absurd h (by simp)
    | some sw0 =>
      rw [hfind] at h
      have h2 : (if sw0.quantity < q then none else some sw0) = some sw := h
      by_cases hlt : sw0.quantity < q
      · rw [if_pos hlt] at h2
        exact absurd h2 (by simp)
      · rw [if_neg hlt] at h2
        injection h2 with h2
        subst h2
        rw [purchase_success_eq allOk st u i q sw0 hv hfind hlt rfl rfl]
        rfl

theorem sample_hp : (("p1" : String) = "") = False := by
  simp only [eq_iff_iff, iff_false]
  decide

theorem sample_read : readSweet sampleStore "p1" = some sampleSweet := rfl

theorem restock_read : readSweet restockStore "p1" = some restockSweet := rfl

/-- C2: a successful purchase of q units (q a positive integer, stock
sufficient, both store writes succeeding) returns the success response
whose record has totalPrice = price * q (price from the snapshot read at
the start of the call) and remainingStock = old quantity - q, appends
exactly that one record to the purchases table, and leaves the product
with stored quantity old - q. -/
theorem purchase_success_conservation (beh : StoreBehavior) (st : Store)
    (u i : String) (q : ℚ) (sw : Sweet) (hid : i ≠ "") (hq : 0 < q)
    (hint : ∃ n : ℕ, q = n) (hfind : readSweet st i = some sw)
    (hstock : q ≤ sw.quantity) (hupd : beh.updateFails = false)
    (hins : beh.insertFails = false) :
    (purchase beh st u i q).1 =
      .success ⟨u, i, q, sw.price * q⟩ (sw.quantity - q) ∧
    ((purchase beh st u i q).2).purchases =
      st.purchases ++ [⟨u, i, q, sw.price * q⟩] ∧
    (readSweet ((purchase beh st u i q).2) i).map Sweet.quantity =
      some (sw.quantity - q) := by
  have hv := valid_not i q hid hq
  rw [purchase_success_eq beh st u i q sw hv hfind (not_lt.mpr hstock) hupd hins]
  refine ⟨rfl, rfl, ?_⟩
  rw [readSweet_insertPurchase, readSweet_update_self st i sw _ hfind]
  rfl

/-- C3: when the stock decrement succeeded but the purchase-record insert
fails (and the compensating write is carried out by the store), the
handler writes the original quantity back, every product reads back as it
did before the call, no purchase record is kept, and the caller gets the
500 transaction-failure response. -/
theorem purchase_compensation (beh : StoreBehavior) (st : Store)
    (u i : String) (q : ℚ) (sw : Sweet) (hid : i ≠ "") (hq : 0 < q)
    (hfind : readSweet st i = some sw) (hstock : q ≤ sw.quantity)
    (hupd : beh.updateFails = false) (hins : beh.insertFails = true)
    (hcomp : beh.compensateFails = false) :
    (purchase beh st u i q).1 = .recordFailed ∧
    ((purchase beh st u i q).1).status = 500 ∧
    ((purchase beh st u i q).2).purchases = st.purchases ∧
    ∀ j, readSweet ((purchase beh st u i q).2) j = readSweet st j := by
  have hv := valid_not i q hid hq
  have heq : purchase beh st u i q =
      (.recordFailed, updateQuantity st i sw.quantity) := by
    rw [purchase_recordFailed_eq beh st u i q sw hv hfind (not_lt.mpr hstock)
      hupd hins, hcomp]
    rw [if_neg Bool.false_ne_true, updateQuantity_updateQuantity]
  rw [heq]
  exact ⟨rfl, rfl, rfl, fun j => readSweet_restore st i sw hfind j⟩

/-- C8: a purchase of more units than are in stock returns the
insufficient-stock response carrying the currently available quantity,
with HTTP status 400, and leaves the store untouched. -/
theorem purchase_insufficient_reports_available (beh : StoreBehavior)
    (st : Store) (u i : String) (q : ℚ) (sw : Sweet) (hid : i ≠ "")
    (hq : 0 < q) (hfind : readSweet st i = some sw)
    (hlt : sw.quantity < q) :
    purchase beh st u i q = (.insufficientStock sw.quantity, st) ∧
    (PurchaseResult.insufficientStock sw.quantity).status = 400 := by
  exact ⟨purchase_insufficient beh st u i q sw (valid_not i q hid hq) hfind hlt,
    rfl⟩

/-- C9: an admin restock of a positive quantity q on an existing product
with quantity n returns n + q as the new quantity, stores n + q as the
product quantity, and performs no secondary write: the purchases table is
untouched. -/
theorem restock_adds_quantity (beh : StoreBehavior) (st : Store) (i : String)
    (q : ℚ) (sw : Sweet) (hid : i ≠ "") (hq : 0 < q)
    (hfind : readSweet st i = some sw) (hupd : beh.updateFails = false) :
    (restock true beh st i q).1 = .success (sw.quantity + q) ∧
    (readSweet ((restock true beh st i q).2) i).map Sweet.quantity =
      some (sw.quantity + q) ∧
    ((restock true beh st i q).2).purchases = st.purchases := by
  rw [restock_success_eq beh st i q sw (valid_not i q hid hq) hfind hupd]
  refine ⟨rfl, ?_, rfl⟩
  rw [readSweet_update_self st i sw _ hfind]
  rfl

/-- C10: the restock handler checks the admin flag before reading the
request body or the product: a non-admin call returns the 403 forbidden
response and the unchanged store, whatever the body and the store contents
are. -/
theorem restock_nonadmin_forbidden (beh : StoreBehavior) (st : Store)
    (i : String) (q : ℚ) :
    restock false beh st i q = (.forbidden, st) ∧
    RestockResult.forbidden.status = 403 := by
  exact ⟨restock_forbidden beh st i q, rfl⟩

/-- C4: a single purchase or restock call applied to a store whose
quantities are all non-negative leaves all quantities non-negative: the
purchase path only writes quantity - q after the quantity >= q check (or
restores the original non-negative quantity when compensating), and the
restock path only adds a validated positive amount. -/
theorem adjustment_preserves_nonneg (beh : StoreBehavior) (st : Store)
    (u i : String) (q : ℚ) (adm : Bool) (hst : nonnegStock st) :
    nonnegStock ((purchase beh st u i q).2) ∧
    nonnegStock ((restock adm beh st i q).2) := by
  constructor
  · by_cases hv : i = "" ∨ q = 0 ∨ q ≤ 0
    · rw [purchase_invalid beh st u i q hv]
      exact hst
    · cases hfind : readSweet st i with
      | none =>
        rw [purchase_notFound beh st u i q hv hfind]
        exact hst
      | some sw =>
        have hswq : 0 ≤ sw.quantity := by
          apply hst
          unfold readSweet at hfind
          exact List.mem_of_find?_eq_some hfind
        by_cases hlt : sw.quantity < q
        · rw [purchase_insufficient beh st u i q sw hv hfind hlt]
          exact hst
        · have hdiff : 0 ≤ sw.quantity - q := sub_nonneg.mpr (not_lt.mp hlt)
          cases hupd : beh.updateFails with
          | true =>
            rw [purchase_updateFailed beh st u i q sw hv hfind hlt hupd]
            exact hst
          | false =>
            cases hins : beh.insertFails with
            | false =>
              rw [purchase_success_eq beh st u i q sw hv hfind hlt hupd hins]
              exact nonnegStock_update st i _ hst hdiff
            | true =>
              rw [purchase_recordFailed_eq beh st u i q sw hv hfind hlt hupd
                hins]
              cases hcomp : beh.compensateFails with
              | true =>
                rw [if_pos rfl]
                exact nonnegStock_update st i _ hst hdiff
              | false =>
                rw [if_neg Bool.false_ne_true]
                exact nonnegStock_update _ i _
                  (nonnegStock_update st i _ hst hdiff) hswq
  · cases adm with
    | false =>
      rw [restock_forbidden beh st i q]
      exact hst
    | true =>
      by_cases hv : i = "" ∨ q = 0 ∨ q ≤ 0
      · rw [restock_invalid beh st i q hv]
        exact hst
      · cases hfind : readSweet st i with
        | none =>
          rw [restock_notFound beh st i q hv hfind]
          exact hst
        | some sw =>
          have hswq : 0 ≤ sw.quantity := by
            apply hst
            unfold readSweet at hfind
            exact List.mem_of_find?_eq_some hfind
          have hq : 0 < q := by
            push_neg at hv
            exact hv.2.2
          cases hupd : beh.updateFails with
          | true =>
            rw [restock_updateFailed beh st i q sw hv hfind hupd]
            exact hst
          | false =>
            rw [restock_success_eq beh st i q sw hv hfind hupd]
            exact nonnegStock_update st i _ hst (by linarith)

/-- C6: a purchase call that fails a precondition (invalid input, unknown
product, or insufficient stock) leaves the store exactly as it was: no
quantity write and no purchase-record insert happens. -/
theorem purchase_precondition_failure_pure (beh : StoreBehavior) (st : Store)
    (u i : String) (q : ℚ)
    (h : (purchase beh st u i q).1 = .invalidRequest ∨
         (purchase beh st u i q).1 = .notFound ∨
         ∃ a, (purchase beh st u i q).1 = .insufficientStock a) :
    (purchase beh st u i q).2 = st := by
  by_cases hv : i = "" ∨ q = 0 ∨ q ≤ 0
  · rw [purchase_invalid beh st u i q hv]
  · cases hfind : readSweet st i with
    | none => rw [purchase_notFound beh st u i q hv hfind]
    | some sw =>
      by_cases hlt : sw.quantity < q
      · rw [purchase_insufficient beh st u i q sw hv hfind hlt]
      · cases hupd : beh.updateFails with
        | true => rw [purchase_updateFailed beh st u i q sw hv hfind hlt hupd]
        | false =>
          cases hins : beh.insertFails with
          | false =>
            rw [purchase_success_eq beh st u i q sw hv hfind hlt hupd hins]
              at h
            rcases h with h | h | ⟨a, h⟩ <;> simp at h
          | true =>
            rw [purchase_recordFailed_eq beh st u i q sw hv hfind hlt hupd
              hins] at h
            rcases h with h | h | ⟨a, h⟩ <;> simp at h

/-- C1: the race evaluated. Two requests, each buying the full stock of 5,
are interleaved read-read-write-write: both read phases pass the stock
check against the same stale snapshot (the stock write is keyed on the id
only, with no optimistic re-check of the quantity), both write phases then
go through, both callers receive the 200 success response, and the store
ends with quantity 0 but two purchase records totalling 10 units sold out
of an initial stock of 5. -/
theorem purchase_race_both_succeed :
    purchaseRead sampleStore "p1" 5 = some sampleSweet ∧
    ((purchaseWrite sampleStore "alice" "p1" 5 sampleSweet).1).status = 200 ∧
    ((purchaseWrite (purchaseWrite sampleStore "alice" "p1" 5
        sampleSweet).2 "bob" "p1" 5 sampleSweet).1).status = 200 ∧
    (readSweet (purchaseWrite (purchaseWrite sampleStore "alice" "p1" 5
        sampleSweet).2 "bob" "p1" 5 sampleSweet).2 "p1").map Sweet.quantity =
      some 0 ∧
    ((purchaseWrite (purchaseWrite sampleStore "alice" "p1" 5
        sampleSweet).2 "bob" "p1" 5 sampleSweet).2).purchases.length = 2 ∧
    (((purchaseWrite (purchaseWrite sampleStore "alice" "p1" 5
        sampleSweet).2 "bob" "p1" 5 sampleSweet).2).purchases.map
      PurchaseRecord.quantity).sum = 10 := by
  refine ⟨?_, rfl, rfl, ?_, rfl, ?_⟩
  · norm_num [purchaseRead, sampleStore, sampleSweet, readSweet, List.find?,
      sample_hp]
  · norm_num [purchaseWrite, sampleStore, sampleSweet, readSweet,
      updateQuantity, insertPurchase, List.find?]
  · norm_num [purchaseWrite, sampleStore, sampleSweet, updateQuantity,
      insertPurchase]

/-- C5: the purchase validation accepts the non-integer quantity 5/2: the
call does not return the invalid-request response; with a store that
accepts the write it succeeds with status 200 and stores the fractional
quantity 5/2 (against the real integer column the write step fails with
the 500 inventory-update error, still not the claimed 400). -/
theorem purchase_noninteger_accepted :
    (0 : ℚ) < 5 / 2 ∧ (∀ n : ℤ, (5 / 2 : ℚ) ≠ n) ∧
    (purchase allOk sampleStore "alice" "p1" (5 / 2)).1 ≠ .invalidRequest ∧
    ((purchase allOk sampleStore "alice" "p1" (5 / 2)).1).status = 200 ∧
    (readSweet ((purchase allOk sampleStore "alice" "p1" (5 / 2)).2)
      "p1").map Sweet.quantity = some (5 / 2) := by
  refine ⟨by norm_num, ?_, ?_, ?_, ?_⟩
  · intro n hn
    have h5 : (5 : ℚ) = 2 * n := by linarith
    have h5z : (5 : ℤ) = 2 * n := by exact_mod_cast h5
    omega
  · have hres : (purchase allOk sampleStore "alice" "p1" (5 / 2)).1 =
        .success ⟨"alice", "p1", 5 / 2, 299 / 40⟩ (5 / 2) := by
      norm_num [purchase, allOk, sampleStore, sampleSweet, readSweet,
        List.find?, sample_hp]
    rw [hres]
    exact fun hc => PurchaseResult.noConfusion hc
  · norm_num [purchase, allOk, sampleStore, sampleSweet, readSweet,
      List.find?, sample_hp, PurchaseResult.status]
  · norm_num [purchase, allOk, sampleStore, sampleSweet, readSweet,
      List.find?, sample_hp, updateQuantity, insertPurchase]

/-- C7: the scenario purchase of 3 units at price 2.99 from stock 5
succeeds with remainingStock 2 and totalPrice exactly 897/100, both in the
exact rational model and under IEEE binary64 arithmetic: the product of
the double nearest 2.99 (unit in the last place 2^(-51)) with 3 is exactly
the double nearest 8.97 (unit in the last place 2^(-49)), so even the
floating-point multiplication of the source yields exactly the decimal
8.97 on this input. -/
theorem purchase_scenario_exact :
    (purchase allOk sampleStore "u1" "p1" 3).1 =
      .success ⟨"u1", "p1", 3, 897 / 100⟩ 2 ∧
    (readSweet ((purchase allOk sampleStore "u1" "p1" 3).2) "p1").map
      Sweet.quantity = some 2 ∧
    3 * nearestFloat (299 / 100) 51 = nearestFloat (897 / 100) 49 := by
  refine ⟨?_, ?_, ?_⟩
  · norm_num [purchase, allOk, sampleStore, sampleSweet, readSweet,
      List.find?, sample_hp]
  · norm_num [purchase, allOk, sampleStore, sampleSweet, readSweet,
      List.find?, sample_hp, updateQuantity, insertPurchase]
  · norm_num [nearestFloat, round_eq]

/-- Witness for C2 at the scenario input: buying 3 units of p1. -/
theorem purchase_success_conservation_witness :
    (purchase allOk sampleStore "u1" "p1" 3).1 =
      .success ⟨"u1", "p1", 3, sampleSweet.price * 3⟩
        (sampleSweet.quantity - 3) ∧
    ((purchase allOk sampleStore "u1" "p1" 3).2).purchases =
      sampleStore.purchases ++ [⟨"u1", "p1", 3, sampleSweet.price * 3⟩] ∧
    (readSweet ((purchase allOk sampleStore "u1" "p1" 3).2) "p1").map
      Sweet.quantity = some (sampleSweet.quantity - 3) :=
  purchase_success_conservation allOk sampleStore "u1" "p1" 3 sampleSweet
    (by decide) (by norm_num) ⟨3, by norm_num⟩ sample_read
    (by norm_num [sampleSweet]) rfl rfl

/-- Witness for C3: the insert fails after the decrement; the store reads
back unchanged and the caller gets the 500 response. -/
theorem purchase_compensation_witness :
    (purchase insertFailure sampleStore "u1" "p1" 3).1 = .recordFailed ∧
    ((purchase insertFailure sampleStore "u1" "p1" 3).1).status = 500 ∧
    ((purchase insertFailure sampleStore "u1" "p1" 3).2).purchases =
      sampleStore.purchases ∧
    readSweet ((purchase insertFailure sampleStore "u1" "p1" 3).2) "p1" =
      readSweet sampleStore "p1" :=
  have h := purchase_compensation insertFailure sampleStore "u1" "p1" 3
    sampleSweet (by decide) (by norm_num) sample_read
    (by norm_num [sampleSweet]) rfl rfl rfl
  ⟨h.1, h.2.1, h.2.2.1, h.2.2.2 "p1"⟩

/-- Witness for C4 at the scenario input. -/
theorem adjustment_preserves_nonneg_witness :
    nonnegStock ((purchase allOk sampleStore "u1" "p1" 3).2) ∧
    nonnegStock ((restock true allOk sampleStore "p1" 3).2) :=
  adjustment_preserves_nonneg allOk sampleStore "u1" "p1" 3 true
    (by norm_num [nonnegStock, sampleStore, sampleSweet])

/-- Witness for C6: a purchase with quantity 0 is rejected as invalid and
the store is unchanged. -/
theorem purchase_precondition_failure_pure_witness :
    (purchase allOk sampleStore "u1" "p1" 0).2 = sampleStore :=
  purchase_precondition_failure_pure allOk sampleStore "u1" "p1" 0
    (Or.inl (by
      rw [purchase_invalid allOk sampleStore "u1" "p1" 0
        (Or.inr (Or.inl rfl))]))

/-- Witness for C8 at the scenario input: p1 has 2 left, 5 are requested,
the response is insufficient stock with available = 2 and status 400. -/
theorem purchase_insufficient_reports_available_witness :
    purchase allOk restockStore "u1" "p1" 5 =
      (.insufficientStock restockSweet.quantity, restockStore) ∧
    (PurchaseResult.insufficientStock restockSweet.quantity).status = 400 :=
  purchase_insufficient_reports_available allOk restockStore "u1" "p1" 5
    restockSweet (by decide) (by norm_num) restock_read
    (by norm_num [restockSweet])

/-- Witness for C9 at the scenario input: restocking 10 onto quantity 2
yields 12. -/
theorem restock_adds_quantity_witness :
    (restock true allOk restockStore "p1" 10).1 =
      .success (restockSweet.quantity + 10) ∧
    (readSweet ((restock true allOk restockStore "p1" 10).2) "p1").map
      Sweet.quantity = some (restockSweet.quantity + 10) ∧
    ((restock true allOk restockStore "p1" 10).2).purchases =
      restockStore.purchases :=
  restock_adds_quantity allOk restockStore "p1" 10 restockSweet (by decide)
    (by norm_num) restock_read rfl
